import Mathlib

/-!
Shallow embedding of the document-segmentation core of `src/app/utils.py`
(class `DocumentService`).  Python strings are modelled as Lean `String`
(a structure over `List Char`); the Python string primitives used by the
code (`strip`, `rstrip`, `lstrip`, `lower`, `startswith`, `endswith`,
`split`, `join`, character tests) are embedded as executable functions on
the underlying character lists.  The regular expression
`^(?P<section>\d+(?:\.\d+)*)(?:[.)]\s*)?(?P<rest>.*)$` is embedded as an
explicit greedy tokenizer `matchSection` with the same capture semantics.
Character classes are modelled at ASCII granularity, which covers every
string the code and spec discuss.  The per-file body of
`DocumentService.create_documents` is embedded as `create_documents`;
the `IndexError` that Python raises on `lines[0]` for an empty line list
is modelled by an `Option` result (`none` = uncaught exception).
-/

/-- ASCII whitespace test standing for the character class stripped by
Python strip and matched by the regex class backslash-s. -/
def isPySpace (c : Char) : Bool := c.isWhitespace

/-- Python lstrip on a character list: drop leading whitespace. -/
def pyLstripList (l : List Char) : List Char := l.dropWhile isPySpace

/-- Python rstrip on a character list: drop trailing whitespace. -/
def pyRstripList : List Char → List Char
  | [] => []
  | c :: cs =>
    match pyRstripList cs with
    | [] => if isPySpace c then [] else [c]
    | b :: bs => c :: b :: bs

/-- Python strip on a character list. -/
def pyStripList (l : List Char) : List Char := pyRstripList (pyLstripList l)

/-- Python str.strip. -/
def pyStrip (s : String) : String := String.mk (pyStripList s.data)

/-- Python str.lstrip. -/
def pyLstrip (s : String) : String := String.mk (pyLstripList s.data)

/-- Python str.rstrip. -/
def pyRstrip (s : String) : String := String.mk (pyRstripList s.data)

/-- Prefix test on character lists. -/
def listStartsWith : List Char → List Char → Bool
  | _, [] => true
  | [], _ :: _ => false
  | c :: cs, p :: ps => if c = p then listStartsWith cs ps else false

/-- Python str.startswith. -/
def pyStartsWith (s pre : String) : Bool := listStartsWith s.data pre.data

/-- Python str.endswith for a single suffix. -/
def pyEndsWith (s suf : String) : Bool := listStartsWith s.data.reverse suf.data.reverse

/-- Python str.lower, at ASCII granularity. -/
def pyLower (s : String) : String := String.mk (s.data.map Char.toLower)

/-- Python sep.join over a list of strings. -/
def pyJoin (sep : String) : List String → String
  | [] => ""
  | [x] => x
  | x :: y :: xs => x ++ sep ++ pyJoin sep (y :: xs)

/-- Helper for Python str.split with no argument: accumulate the current
word (reversed) and cut at whitespace runs, dropping empty words. -/
def pyWordsAux : List Char → List Char → List String
  | [], acc => if acc = [] then [] else [String.mk acc.reverse]
  | c :: cs, acc =>
    if isPySpace c then
      (if acc = [] then [] else [String.mk acc.reverse]) ++ pyWordsAux cs []
    else pyWordsAux cs (c :: acc)

/-- Python str.split with no argument: whitespace-separated words. -/
def pyWords (s : String) : List String := pyWordsAux s.data []

/-- Index of the last dot in a character list, if any. -/
def lastDotIdx : List Char → Option Nat
  | [] => none
  | c :: cs =>
    match lastDotIdx cs with
    | some i => some (i + 1)
    | none => if c = '.' then some 0 else none

/-- Python os.path.splitext applied to a basename, first component: cut at
the last dot provided some character strictly before it is not a dot. -/
def splitext_stem (name : String) : String :=
  match lastDotIdx name.data with
  | none => name
  | some i =>
    if (name.data.take i).any (fun c => c ≠ '.') then String.mk (name.data.take i)
    else name

/-- Greedy scan of the longest prefix shaped like one or more digits
followed by any number of groups of a dot and one or more digits, the
section capture of the regex; returns that prefix and the remainder.  A
dot is consumed only when a digit follows, matching regex backtracking. -/
def secMore : List Char → List Char × List Char
  | [] => ([], [])
  | [c] => if c.isDigit then ([c], []) else ([], [c])
  | c :: c2 :: cs =>
    if c.isDigit then
      match secMore (c2 :: cs) with
      | (a, r) => (c :: a, r)
    else if c = '.' ∧ c2.isDigit then
      match secMore cs with
      | (a, r) => (c :: c2 :: a, r)
    else ([], c :: c2 :: cs)

/-- Embedding of section_pattern from utils.py line 77, the anchored regex
matching a dot-separated digit sequence, an optional single separator dot
or closing parenthesis with trailing whitespace, and the remainder of the
line captured as rest.  Returns the section and rest captures, or none
when the string does not start with a digit. -/
def matchSection (s : String) : Option (String × String) :=
  match s.data with
  | [] => none
  | c0 :: _ =>
    if c0.isDigit then
      match secMore s.data with
      | (d, r2) =>
        match r2 with
        | c :: cs =>
          if c = '.' ∨ c = ')' then
            some (String.mk d, String.mk (cs.dropWhile isPySpace))
          else some (String.mk d, String.mk (c :: cs))
        | [] => some (String.mk d, "")
    else none

/-- Embedding of DocumentService.looks_like_title: short, few words,
starts with an uppercase letter or digit, no sentence-final punctuation. -/
def looks_like_title (s : String) : Bool :=
  if s = "" then false
  else
    let t := pyStrip s
    if t.data.length > 60 then false
    else if (pyWords t).length > 8 then false
    else if !(match t.data with
              | c :: _ => ('A' ≤ c ∧ c ≤ 'Z') ∨ ('0' ≤ c ∧ c ≤ '9')
              | [] => False) then false
    else if pyEndsWith t "." || pyEndsWith t ":" || pyEndsWith t ";" then false
    else true

/-- Embedding of DocumentService.should_join: decide whether curr is a
wrapped continuation of prev.  The terminal punctuation set is period,
exclamation mark, question mark, double quote and single quote; the last
two are written by code point. -/
def should_join (prev curr : String) : Bool :=
  if prev = "" ∨ curr = "" then false
  else
    match curr.data with
    | [] => false
    | c :: _ =>
      if c.isLower then true
      else if !(pyEndsWith prev "." || pyEndsWith prev "!" || pyEndsWith prev "?" ||
                pyEndsWith prev (String.mk [Char.ofNat 34]) ||
                pyEndsWith prev (String.mk [Char.ofNat 39])) then true
      else if !c.isDigit && !(pyStartsWith (pyLower curr) "citations") then true
      else false

/-- Test used inside DocumentService.strip_trailing_citations for one
line: after stripping, a non-empty line starting (case-insensitively)
with citations, or shaped like a bare URL, cuts the list at its index.
Lines that strip to the empty string are skipped by the Python loop and
therefore never cut. -/
def isCitationLine (ln : String) : Bool :=
  if pyStrip ln = "" then false
  else if pyStartsWith (pyLower (pyStrip ln)) "citations" then true
  else if pyStartsWith (pyStrip ln) "http://" || pyStartsWith (pyStrip ln) "https://" ||
          pyStartsWith (pyStrip ln) "www." then true
  else false

/-- Embedding of DocumentService.strip_trailing_citations: the Python loop
returns the slice of lines strictly before the first index whose line
triggers isCitationLine, and the whole list when no line triggers. -/
def strip_trailing_citations : List String → List String
  | [] => []
  | ln :: rest => if isCitationLine ln then [] else ln :: strip_trailing_citations rest

/-- One step of the paragraph-assembly loop in
DocumentService.flush_section.  The accumulator carries the completed
paragraphs and the current paragraph buffer, in order. -/
def flushStep (acc : List String × List String) (ln : String) : List String × List String :=
  if ln = "" then
    match acc.2 with
    | [] => acc
    | b :: bs => (acc.1 ++ [pyStrip (pyJoin " " (b :: bs))], [])
  else
    match acc.2.getLast? with
    | some prev =>
      if should_join prev ln then
        (acc.1, acc.2.dropLast ++ [pyRstrip prev ++ " " ++ pyLstrip ln])
      else (acc.1, acc.2 ++ [ln])
    | none => (acc.1, acc.2 ++ [ln])

/-- Paragraph list produced by the flush_section loop, including the final
flush of a non-empty buffer after the loop. -/
def assembleParagraphs (content_lines : List String) : List String :=
  match content_lines.foldl flushStep ([], []) with
  | (paragraphs, []) => paragraphs
  | (paragraphs, b :: bs) => paragraphs ++ [pyStrip (pyJoin " " (b :: bs))]

/-- Final text assembly in DocumentService.flush_section: paragraphs are
joined by a blank line and the whole result stripped. -/
def assemble (content_lines : List String) : String :=
  pyStrip (pyJoin "\n\n" (assembleParagraphs content_lines))

/-- Output record built by DocumentService.flush_section: the four
metadata entries of the emitted llama-index Document plus its text.  The
metadata key named section is rendered as the field sec because section
is a Lean keyword. -/
structure SectionDocument where
  sec : String
  section_title : String
  source : String
  file_name : String
  text : String
deriving Repr, DecidableEq

/-- Mutable per-file scan state of the create_documents loop. -/
structure ScanState where
  current_section : Option String
  section_title : Option String
  current_text_lines : List String
  curr_docs : List SectionDocument
deriving Repr, DecidableEq

/-- Embedding of DocumentService.flush_section: emit a document for the
open section when some buffered line has non-whitespace content and the
assembled text is non-empty; otherwise leave the output untouched. -/
def flush_section (curr_docs : List SectionDocument) (current_section : Option String)
    (current_text_lines : List String) (source filename : String)
    (section_title : Option String) : List SectionDocument :=
  match current_section with
  | none => curr_docs
  | some sec =>
    if current_text_lines.any (fun t => !(pyStrip t).data.isEmpty) then
      if assemble (strip_trailing_citations current_text_lines) = "" then curr_docs
      else
        curr_docs ++ [{ sec := sec, section_title := section_title.getD "",
                        source := source, file_name := filename,
                        text := assemble (strip_trailing_citations current_text_lines) }]
    else curr_docs

/-- One iteration of the line loop of DocumentService.create_documents:
the line is right-stripped, blank lines append a paragraph-break marker
inside a section, heading matches flush the open section and open a new
one deciding title versus body seed, and other lines extend the body via
should_join.  Note that section_title is not reset when the new heading
is not accepted as a title, exactly as in the source. -/
def scanLine (bold_candidates : List String) (source filename : String)
    (st : ScanState) (line : String) : ScanState :=
  if pyStrip (pyRstrip line) = "" then
    match st.current_section with
    | some _ => { st with current_text_lines := st.current_text_lines ++ [""] }
    | none => st
  else
    match matchSection (pyStrip (pyRstrip line)) with
    | some (sec, rest0) =>
      if bold_candidates.contains (pyStrip (pyRstrip line)) && looks_like_title (pyStrip rest0) then
        { current_section := some sec, section_title := some (pyStrip rest0),
          current_text_lines := [],
          curr_docs := flush_section st.curr_docs st.current_section st.current_text_lines
                         source filename st.section_title }
      else
        { current_section := some sec, section_title := st.section_title,
          current_text_lines := if pyStrip rest0 = "" then [] else [pyStrip rest0],
          curr_docs := flush_section st.curr_docs st.current_section st.current_text_lines
                         source filename st.section_title }
    | none =>
      match st.current_section with
      | none => st
      | some _ =>
        match st.current_text_lines.getLast? with
        | some prev =>
          if should_join prev (pyRstrip line) then
            { st with current_text_lines :=
                st.current_text_lines.dropLast ++
                  [pyRstrip prev ++ " " ++ pyLstrip (pyRstrip line)] }
          else { st with current_text_lines := st.current_text_lines ++ [pyRstrip line] }
        | none => { st with current_text_lines := st.current_text_lines ++ [pyRstrip line] }

/-- Initial per-file scan state. -/
def initState : ScanState :=
  { current_section := none, section_title := none, current_text_lines := [], curr_docs := [] }

/-- Per-file body of DocumentService.create_documents, taking the line
list split from the extracted text, the accumulated bold-only lines and
the basename of the file.  Directory iteration and pdfplumber extraction
are external collaborators and are not modelled.  The Python code indexes
lines[0] before the loop, so an empty line list raises IndexError, which
the embedding renders as none. -/
def create_documents (lines : List String) (bold_candidates : List String)
    (filename : String) : Option (List SectionDocument) :=
  match lines with
  | [] => none
  | first :: _ =>
    let source :=
      match matchSection (pyStrip first) with
      | none => pyStrip first
      | some _ => splitext_stem filename
    let final := lines.foldl (scanLine bold_candidates source filename) initState
    some (flush_section final.curr_docs final.current_section final.current_text_lines
           source filename final.section_title)

/-- First character of a string is a lowercase letter. -/
def firstCharLower (s : String) : Bool :=
  match s.data with
  | c :: _ => c.isLower
  | [] => false

/-- First character of a string is a decimal digit. -/
def firstCharDigit (s : String) : Bool :=
  match s.data with
  | c :: _ => c.isDigit
  | [] => false

/-- Last character of a string is one of the five terminal punctuation
characters of spec section 4.2: period, exclamation mark, question mark,
double quote (code point 34) or single quote (code point 39). -/
def lastCharTerminal (s : String) : Bool :=
  match s.data.getLast? with
  | some c => if c = '.' ∨ c = '!' ∨ c = '?' ∨ c = Char.ofNat 34 ∨ c = Char.ofNat 39 then true else false
  | none => false

/-- Spec-side restatement of the continuation joiner contract of spec
section 4.2, written rule by rule in the stated strict order, for the
refinement comparison of claim C6 against should_join. -/
def continues_spec (prev curr : String) : Bool :=
  if prev = "" ∨ curr = "" then false
  else if firstCharLower curr then true
  else if !lastCharTerminal prev then true
  else if !firstCharDigit curr && !(pyStartsWith (pyLower curr) "citations") then true
  else false

/-- Spec-side restatement of the citation cut condition of spec section
4.3: the trimmed form of the line starts case-insensitively with
citations or has a bare URL shape, for the refinement comparison of
claim C7 against strip_trailing_citations. -/
def citation_cut_spec (ln : String) : Bool :=
  pyStartsWith (pyLower (pyStrip ln)) "citations" ||
  pyStartsWith (pyStrip ln) "http://" ||
  pyStartsWith (pyStrip ln) "https://" ||
  pyStartsWith (pyStrip ln) "www."

theorem string_eq_empty_iff (s : String) : s = "" ↔ s.data = [] := by
  constructor
  · intro h; rw [h]
  · intro h; exact String.ext (by simpa using h)

theorem dropWhile_dropWhile (p : Char → Bool) (l : List Char) :
    (l.dropWhile p).dropWhile p = l.dropWhile p := by
  induction l with
  | nil => rfl
  | cons a t ih =>
    simp only [List.dropWhile_cons]
    split
    · exact ih
    · simp_all [List.dropWhile_cons]

theorem pyLstripList_idem (l : List Char) :
    pyLstripList (pyLstripList l) = pyLstripList l := dropWhile_dropWhile _ l

theorem pyRstripList_cons (c : Char) (cs : List Char) :
    pyRstripList (c :: cs) =
      match pyRstripList cs with
      | [] => if isPySpace c then [] else [c]
      | b :: bs => c :: b :: bs := rfl

theorem pyRstripList_idem (l : List Char) : pyRstripList (pyRstripList l) = pyRstripList l := by
  induction l with
  | nil => rfl
  | cons c cs ih =>
    cases h : pyRstripList cs with
    | nil =>
      have e : pyRstripList (c :: cs) = if isPySpace c then [] else [c] := by
        rw [pyRstripList_cons c cs, h]
      by_cases hc : isPySpace c
      · rw [e, if_pos hc]; rfl
      · rw [e, if_neg hc]; simp [pyRstripList, hc]
    | cons b bs =>
      have e : pyRstripList (c :: cs) = c :: b :: bs := by
        rw [pyRstripList_cons c cs, h]
      rw [h] at ih
      rw [e, pyRstripList_cons c (b :: bs), ih]

theorem lstrip_rstrip (l : List Char) :
    pyLstripList (pyRstripList l) = pyRstripList (pyLstripList l) := by
  induction l with
  | nil => rfl
  | cons a t ih =>
    by_cases ha : isPySpace a
    · have el : pyLstripList (a :: t) = pyLstripList t := by
        simp [pyLstripList, List.dropWhile_cons, ha]
      cases h : pyRstripList t with
      | nil =>
        have e : pyRstripList (a :: t) = [] := by rw [pyRstripList_cons a t, h, if_pos ha]
        rw [e, el, ← ih, h]
      | cons b bs =>
        have e : pyRstripList (a :: t) = a :: b :: bs := by rw [pyRstripList_cons a t, h]
        rw [e, el, ← ih, h]
        simp [pyLstripList, List.dropWhile_cons, ha]
    · have el : pyLstripList (a :: t) = a :: t := by
        simp [pyLstripList, List.dropWhile_cons, ha]
      cases h : pyRstripList t with
      | nil =>
        have e : pyRstripList (a :: t) = [a] := by rw [pyRstripList_cons a t, h, if_neg ha]
        rw [e, el, e]
        simp [pyLstripList, List.dropWhile_cons, ha]
      | cons b bs =>
        have e : pyRstripList (a :: t) = a :: b :: bs := by rw [pyRstripList_cons a t, h]
        rw [e, el, e]
        simp [pyLstripList, List.dropWhile_cons, ha]

theorem pyStripList_idem (l : List Char) : pyStripList (pyStripList l) = pyStripList l := by
  unfold pyStripList
  rw [lstrip_rstrip, pyLstripList_idem, pyRstripList_idem]

theorem pyStrip_idem (s : String) : pyStrip (pyStrip s) = pyStrip s :=
  congrArg String.mk (pyStripList_idem s.data)

theorem pyStrip_pyRstrip (s : String) : pyStrip (pyRstrip s) = pyStrip s := by
  show String.mk (pyStripList (pyRstripList s.data)) = String.mk (pyStripList s.data)
  unfold pyStripList
  rw [lstrip_rstrip, pyRstripList_idem]

theorem assemble_stripped (cl : List String) : pyStrip (assemble cl) = assemble cl :=
  pyStrip_idem _

/-- Claim C1 counterexample: on the end-to-end scenario input with an
empty BoldLineSet and filename laws.pdf, the splitter does NOT emit the
two documents the claim lists, because the heading remainder seeded into
the body is joined with the following body line by should_join. -/
theorem claim1_counterexample :
    ¬(create_documents
        ["1. Theft", "Theft is punishable by hanging.", "",
         "2. Tax Evasion", "Tax evasion is punishable by banishment."] [] "laws.pdf" =
      some
        [{ sec := "1", section_title := "", source := "laws", file_name := "laws.pdf",
           text := "Theft is punishable by hanging." },
         { sec := "2", section_title := "", source := "laws", file_name := "laws.pdf",
           text := "Tax evasion is punishable by banishment." }]) := by
  decide

/-- Claim C1 amended: the scenario emits exactly two SectionDocuments
with section numbers 1 and 2, empty titles and source laws, but each
body text is prefixed by the heading remainder joined with a space,
because the remainder is seeded into the body and the continuation
joiner merges the following line into it. -/
theorem claim1_scenario :
    create_documents
        ["1. Theft", "Theft is punishable by hanging.", "",
         "2. Tax Evasion", "Tax evasion is punishable by banishment."] [] "laws.pdf" =
      some
        [{ sec := "1", section_title := "", source := "laws", file_name := "laws.pdf",
           text := "Theft Theft is punishable by hanging." },
         { sec := "2", section_title := "", source := "laws", file_name := "laws.pdf",
           text := "Tax Evasion Tax evasion is punishable by banishment." }] := by
  decide

/-- Claim C2: contrary to the claim, a file whose extracted text yields
zero lines does not complete: indexing lines[0] raises IndexError,
modelled as none; and a file whose first line is empty completes but
labels its sections with the empty source string rather than with the
filename stem. -/
theorem claim2_empty_input :
    create_documents [] [] "laws.pdf" = none
    ∧ create_documents ["", "1. X", "Body text here."] [] "laws.pdf" =
        some [{ sec := "1", section_title := "", source := "",
                file_name := "laws.pdf", text := "X Body text here." }] := by
  constructor
  · rfl
  · decide

/-- Claim C3: contrary to the claim, section_title is not reset when a
new heading is not accepted as a title, so a later untitled section
inherits the title set for an earlier section of the same file: here
section 2 is emitted with section_title Definitions although its heading
was not in the BoldLineSet. -/
theorem claim3_stale_title :
    create_documents
        ["1. Definitions", "Alpha beta.", "2. Section Two Here", "Gamma delta."]
        ["1. Definitions"] "laws.pdf" =
      some
        [{ sec := "1", section_title := "Definitions", source := "laws",
           file_name := "laws.pdf", text := "Alpha beta." },
         { sec := "2", section_title := "Definitions", source := "laws",
           file_name := "laws.pdf", text := "Section Two Here Gamma delta." }] := by
  decide

/-- Claim C4: contrary to the claim, the source label is computed from
the first line of the file, blank or not, rather than from the first
non-blank line: with a blank first line the label is the empty string,
not the first non-blank raw line My Laws and not the filename stem. -/
theorem claim4_source_first_line :
    create_documents ["", "My Laws", "1. X", "Body text."] [] "laws.pdf" =
      some [{ sec := "1", section_title := "", source := "",
              file_name := "laws.pdf", text := "X Body text." }] := by
  decide

/-- Claim C8: citation stripping is idempotent. -/
theorem claim8_strip_citations_idem (lines : List String) :
    strip_trailing_citations (strip_trailing_citations lines) = strip_trailing_citations lines := by
  induction lines with
  | nil => rfl
  | cons ln rest ih =>
    by_cases h : isCitationLine ln = true
    · simp [strip_trailing_citations, h]
    · simp only [strip_trailing_citations, Bool.not_eq_true] at *
      simp [h, strip_trailing_citations, ih]

theorem pyEndsWith_single (s : String) (ch : Char) :
    pyEndsWith s (String.mk [ch]) =
      match s.data.getLast? with
      | some a => decide (a = ch)
      | none => false := by
  unfold pyEndsWith
  rw [← List.head?_reverse]
  cases h : s.data.reverse with
  | nil => simp [h, listStartsWith]
  | cons a t =>
    simp only [h, List.head?_cons]
    show listStartsWith (a :: t) [ch] = decide (a = ch)
    by_cases hh : a = ch <;> simp [listStartsWith, hh]

theorem endsTerminal_eq (prev : String) :
    (pyEndsWith prev "." || pyEndsWith prev "!" || pyEndsWith prev "?" ||
     pyEndsWith prev (String.mk [Char.ofNat 34]) || pyEndsWith prev (String.mk [Char.ofNat 39]))
    = lastCharTerminal prev := by
  have e1 : ("." : String) = String.mk ['.'] := rfl
  have e2 : ("!" : String) = String.mk ['!'] := rfl
  have e3 : ("?" : String) = String.mk ['?'] := rfl
  rw [e1, e2, e3, pyEndsWith_single, pyEndsWith_single, pyEndsWith_single,
      pyEndsWith_single, pyEndsWith_single]
  unfold lastCharTerminal
  cases prev.data.getLast? with
  | none => rfl
  | some a =>
    by_cases h : a = '.' ∨ a = '!' ∨ a = '?' ∨ a = Char.ofNat 34 ∨ a = Char.ofNat 39
    · simp only [if_pos h]
      rcases h with h | h | h | h | h <;> simp [h]
    · simp only [if_neg h]
      push_neg at h
      obtain ⟨h1, h2, h3, h4, h5⟩ := h
      simp [h1, h2, h3, h4, h5]

theorem should_join_eq_spec (prev curr : String) :
    should_join prev curr = continues_spec prev curr := by
  unfold should_join continues_spec firstCharLower firstCharDigit
  by_cases he : prev = "" ∨ curr = ""
  · simp [he]
  · rw [if_neg he, if_neg he, endsTerminal_eq]
    cases hcd : curr.data with
    | nil => exact absurd (Or.inr ((string_eq_empty_iff curr).2 hcd)) he
    | cons c cs => rfl

/-- Claim C6: should_join refines the spec contract continues_spec,
including the empty-argument rule, and satisfies the four truth-table
fixtures of spec section 8. -/
theorem claim6_continuation_joiner :
    (∀ prev curr, should_join prev curr = continues_spec prev curr)
    ∧ (∀ s, should_join "" s = false)
    ∧ (∀ s, should_join s "" = false)
    ∧ should_join "The law is clear." "and binding." = true
    ∧ should_join "This is final" "Next rule applies" = true
    ∧ should_join "This is final." "5. Next rule" = false
    ∧ should_join "This is final." "Citations: see below" = false := by
  refine ⟨should_join_eq_spec, ?_, ?_, by decide, by decide, by decide, by decide⟩
  · intro s; unfold should_join; simp
  · intro s; unfold should_join; simp

theorem isCitationLine_eq_spec (ln : String) : isCitationLine ln = citation_cut_spec ln := by
  unfold isCitationLine citation_cut_spec
  by_cases h : pyStrip ln = ""
  · rw [if_pos h, h]
    decide
  · rw [if_neg h]
    cases h1 : pyStartsWith (pyLower (pyStrip ln)) "citations" <;>
      cases h2 : pyStartsWith (pyStrip ln) "http://" <;>
        cases h3 : pyStartsWith (pyStrip ln) "https://" <;>
          cases h4 : pyStartsWith (pyStrip ln) "www." <;>
            simp [h1, h2, h3, h4]

/-- Claim C7: strip_trailing_citations returns exactly the longest prefix
of lines strictly before the first line satisfying the spec citation cut
condition, returning the input unchanged when no line satisfies it, and
the spec fixture strips and assembles as stated. -/
theorem claim7_citation_stripper :
    (∀ lines, strip_trailing_citations lines =
        lines.takeWhile (fun ln => !citation_cut_spec ln))
    ∧ strip_trailing_citations ["Some legal text.", "", "Citations:", "See also Law 4"] =
        ["Some legal text.", ""]
    ∧ assemble (strip_trailing_citations
        ["Some legal text.", "", "Citations:", "See also Law 4"]) = "Some legal text." := by
  refine ⟨?_, by decide, by decide⟩
  intro lines
  induction lines with
  | nil => rfl
  | cons ln rest ih =>
    simp only [strip_trailing_citations, isCitationLine_eq_spec, List.takeWhile_cons]
    cases hb : citation_cut_spec ln <;> simp [hb, ih]

theorem mem_flush_section {docs : List SectionDocument} {cursec : Option String}
    {lines : List String} {src fn : String} {title : Option String} {d : SectionDocument}
    (hd : d ∈ flush_section docs cursec lines src fn title) :
    d ∈ docs ∨ pyStrip d.text ≠ "" := by
  unfold flush_section at hd
  split at hd
  · exact Or.inl hd
  · split at hd
    · split at hd
      · exact Or.inl hd
      · next hne =>
        rcases List.mem_append.1 hd with hmem | hmem
        · exact Or.inl hmem
        · refine Or.inr ?_
          rw [List.mem_singleton.1 hmem]
          show pyStrip (assemble (strip_trailing_citations lines)) ≠ ""
          rw [assemble_stripped]
          exact hne
    · exact Or.inl hd

theorem scanLine_docs (bold : List String) (src fn : String) (st : ScanState) (line : String) :
    (scanLine bold src fn st line).curr_docs = st.curr_docs ∨
    (scanLine bold src fn st line).curr_docs =
      flush_section st.curr_docs st.current_section st.current_text_lines src fn
        st.section_title := by
  unfold scanLine
  repeat' split
  all_goals first
  | (left; rfl)
  | (right; rfl)

theorem foldl_scan_nonempty (bold : List String) (src fn : String) (L : List String)
    (st : ScanState) (h : ∀ d ∈ st.curr_docs, pyStrip d.text ≠ "") :
    ∀ d ∈ (L.foldl (scanLine bold src fn) st).curr_docs, pyStrip d.text ≠ "" := by
  induction L generalizing st with
  | nil => simpa using h
  | cons l L ih =>
    rw [List.foldl_cons]
    apply ih
    intro d hd
    rcases scanLine_docs bold src fn st l with he | he
    · rw [he] at hd; exact h d hd
    · rw [he] at hd
      rcases mem_flush_section hd with hmem | hmem
      · exact h d hmem
      · exact hmem

/-- Claim C5: no emitted SectionDocument has empty trimmed body text, and
a section buffer consisting entirely of empty-string markers is never
flushed to the output. -/
theorem claim5_no_empty_body :
    (∀ lines bold fn docs, create_documents lines bold fn = some docs →
       ∀ d ∈ docs, pyStrip d.text ≠ "")
    ∧ (∀ docs cursec lines src fn title, (∀ t ∈ lines, t = "") →
       flush_section docs cursec lines src fn title = docs) := by
  constructor
  · intro lines bold fn docs hc d hd
    cases lines with
    | nil => simp [create_documents] at hc
    | cons first rest =>
      simp only [create_documents] at hc
      rw [← Option.some.inj hc] at hd
      rcases mem_flush_section hd with hmem | hmem
      · exact foldl_scan_nonempty _ _ _ _ initState (by simp [initState]) d hmem
      · exact hmem
  · intro docs cursec lines src fn title hall
    unfold flush_section
    cases cursec with
    | none => rfl
    | some sec =>
      have hany : lines.any (fun t => !(pyStrip t).data.isEmpty) = false := by
        rw [List.any_eq_false]
        intro t ht
        rw [hall t ht]
        decide
      simp [hany]

/-- Claim C5 witness: a concrete run of create_documents on a two-line
file, whose single emitted document has non-empty trimmed text. -/
theorem claim5_no_empty_body_witness : pyStrip "X Body text here." ≠ "" :=
  claim5_no_empty_body.1 ["1. X", "Body text here."] [] "laws.pdf"
    [{ sec := "1", section_title := "", source := "laws", file_name := "laws.pdf",
       text := "X Body text here." }] (by decide)
    { sec := "1", section_title := "", source := "laws", file_name := "laws.pdf",
      text := "X Body text here." } (by decide)

theorem scanLine_noop (bold : List String) (src fn : String) (st : ScanState) (l : String)
    (hs : st.current_section = none) (hm : matchSection (pyStrip l) = none) :
    scanLine bold src fn st l = st := by
  unfold scanLine
  rw [pyStrip_pyRstrip, hm, hs]
  split <;> rfl

theorem foldl_scan_noop (bold : List String) (src fn : String) (pre : List String)
    (hpre : ∀ l ∈ pre, matchSection (pyStrip l) = none) :
    pre.foldl (scanLine bold src fn) initState = initState := by
  induction pre with
  | nil => rfl
  | cons l L ih =>
    rw [List.foldl_cons, scanLine_noop bold src fn initState l rfl (hpre l (by simp))]
    exact ih (fun x hx => hpre x (by simp [hx]))

/-- Claim C9 counterexample: the empty line sequence contains no line
matching the heading pattern, yet the code does not produce an empty
output sequence for it: indexing lines[0] raises IndexError (none). -/
theorem claim9_counterexample :
    ¬(create_documents [] [] "laws.pdf" = some []) := by decide

/-- Claim C9 amended: for every NON-EMPTY line sequence containing no
heading-pattern match the output is empty (the empty sequence instead
raises IndexError), and lines whose trimmed form does not match the
heading pattern leave the initial scan state untouched, so a no-heading
prefix is discarded and contributes nothing to any emitted document. -/
theorem claim9_no_heading_no_output :
    (∀ lines bold fn, lines ≠ [] → (∀ l ∈ lines, matchSection (pyStrip l) = none) →
       create_documents lines bold fn = some [])
    ∧ (∀ (pre rest bold : List String) (src fn : String),
       (∀ l ∈ pre, matchSection (pyStrip l) = none) →
       (pre ++ rest).foldl (scanLine bold src fn) initState =
         rest.foldl (scanLine bold src fn) initState) := by
  constructor
  · intro lines bold fn hne hnom
    cases lines with
    | nil => exact absurd rfl hne
    | cons first rest =>
      simp only [create_documents]
      rw [foldl_scan_noop bold _ fn (first :: rest) hnom]
      rfl
  · intro pre rest bold src fn hpre
    rw [List.foldl_append, foldl_scan_noop bold src fn pre hpre]

/-- Claim C9 witness: a single-line file with no heading yields an empty
document list. -/
theorem claim9_witness : create_documents ["hello"] [] "f.pdf" = some [] :=
  claim9_no_heading_no_output.1 ["hello"] [] "f.pdf" (by decide) (by decide)

theorem matchSection_isSome_of_digit (s : String) (c : Char) (cs : List Char)
    (hdata : s.data = c :: cs) (hdig : c.isDigit = true) :
    (matchSection s).isSome = true := by
  unfold matchSection
  rw [hdata]
  simp only [hdig, if_true]
  rcases hsec : secMore (c :: cs) with ⟨d, r2⟩
  cases r2 with
  | nil => rfl
  | cons a as => split <;> first | rfl | (split <;> rfl)

theorem scanLine_digit (bold : List String) (src fn : String) (st : ScanState) (line : String)
    (c : Char) (cs : List Char) (hdata : (pyStrip line).data = c :: cs)
    (hdig : c.isDigit = true) :
    (scanLine bold src fn st line).current_section =
        (matchSection (pyStrip line)).map Prod.fst
    ∧ (scanLine bold src fn st line).curr_docs =
        flush_section st.curr_docs st.current_section st.current_text_lines src fn
          st.section_title := by
  have hne : ¬(pyStrip line = "") := by
    rw [string_eq_empty_iff, hdata]; simp
  have hsome : (matchSection (pyStrip line)).isSome = true :=
    matchSection_isSome_of_digit _ c cs hdata hdig
  unfold scanLine
  rw [pyStrip_pyRstrip, if_neg hne]
  rcases Option.isSome_iff_exists.mp hsome with ⟨pr, hm⟩
  obtain ⟨sec, rest0⟩ := pr
  simp only [hm, Option.map_some']
  by_cases hb : (bold.contains (pyStrip line) && looks_like_title (pyStrip rest0)) = true
  · rw [if_pos hb]; exact ⟨rfl, rfl⟩
  · rw [if_neg hb]; exact ⟨rfl, rfl⟩

/-- Claim C10: every line whose trimmed form begins with a decimal digit
matches the heading pattern, and the scan loop then flushes the open
section and opens a new one numbered by the section capture, never
treating such a line as a body line; in particular the prose line 2023
was a landmark year parses as section 2023 with the remainder as rest. -/
theorem claim10_digit_heading :
    (∀ (s : String) (c : Char) (cs : List Char), s.data = c :: cs → c.isDigit = true →
       (matchSection s).isSome = true)
    ∧ (∀ (bold : List String) (src fn : String) (st : ScanState) (line : String)
         (c : Char) (cs : List Char),
         (pyStrip line).data = c :: cs → c.isDigit = true →
         (scanLine bold src fn st line).current_section =
            (matchSection (pyStrip line)).map Prod.fst
         ∧ (scanLine bold src fn st line).curr_docs =
            flush_section st.curr_docs st.current_section st.current_text_lines src fn
              st.section_title)
    ∧ matchSection "2023 was a landmark year" = some ("2023", " was a landmark year") :=
  ⟨matchSection_isSome_of_digit, scanLine_digit, by decide⟩

/-- Claim C10 witness: the digit-leading prose line at a concrete scan
state matches and opens section 2023 while flushing the previous state. -/
theorem claim10_witness :
    (matchSection "2023 was a landmark year").isSome = true
    ∧ ((scanLine [] "src" "f.pdf" initState "2023 was a landmark year").current_section =
        (matchSection (pyStrip "2023 was a landmark year")).map Prod.fst
       ∧ (scanLine [] "src" "f.pdf" initState "2023 was a landmark year").curr_docs =
          flush_section initState.curr_docs initState.current_section
            initState.current_text_lines "src" "f.pdf" initState.section_title) :=
  ⟨claim10_digit_heading.1 "2023 was a landmark year" '2' "023 was a landmark year".data
     (by decide) (by decide),
   claim10_digit_heading.2.1 [] "src" "f.pdf" initState "2023 was a landmark year" '2'
     "023 was a landmark year".data (by decide) (by decide)⟩
